import Mathlib

/-!
# MotorCasino edge gateway — verification development

Shallow embedding of `src/index.js` (a Fastly Compute handler that serves
objects from an S3 origin through an edge cache and logs one telemetry
record per request to BigQuery), together with proofs about the spec's
claims on it.

Modelling conventions:
* JS strings are Lean `String`; header bags are association lists in
  insertion order, with names pre-normalized to lowercase exactly as the
  platform `Headers` object stores them.
* Machine-level effects (the actual `fetch` calls to the cache store, the
  S3 backend and the cache PUT) are an environment `Env` of response-or-fault
  functions: a promise rejection is `FetchOutcome.fault msg`, a settled
  response is `FetchOutcome.resp r`.
* Wall-clock values (`Date.now()`, `new Date().toISOString()`) are passed
  in as an opaque `now : String`; latency fields are not modelled since no
  claim concerns them.
* `logger.log` (the local debug logger) is invisible to clients and sinks
  and is not modelled; `logToBigQuery` is modelled by the record it emits.
-/

namespace MotorCasino

/-- `const AWS_REGION = "us-east-1"` from `src/index.js`. -/
def AWS_REGION : String := "us-east-1"

/-- `const S3_BUCKET_NAME = "your-bucket-name"` from `src/index.js`. -/
def S3_BUCKET_NAME : String := "your-bucket-name"

/-- `const CACHE_TTL = 800` (seconds) from `src/index.js`. -/
def CACHE_TTL : Nat := 800

/-- An HTTP response value: status, body bytes (as a string), and headers
in insertion order.  Models the JS `Response` objects flowing through the
handler. -/
structure Response where
  status : Nat
  body : String
  headers : List (String × String)
deriving Repr, DecidableEq

/-- JS `Response.ok`: true exactly when the status is in `200..299`. -/
def Response.ok (r : Response) : Bool :=
  200 ≤ r.status && r.status ≤ 299

/-- The inbound request as the handler sees it.  `hostname` and `pathname`
are the components `new URL(request.url)` yields; the platform guarantees
`request.url` parses, so we carry the parsed components directly. -/
structure Request where
  url : String
  hostname : String
  pathname : String
  method : String
  headers : List (String × String)
deriving Repr, DecidableEq

/-- `headers.get(name)`: first binding of `name` in the bag, `null` (= `none`)
when absent.  Header names are stored lowercase, so lookup is literal. -/
def headersGet (hs : List (String × String)) (name : String) : Option String :=
  match hs with
  | [] => none
  | (k, v) :: rest => if k = name then some v else headersGet rest name

/-- JS `a || b` on a nullable string `a`: `a` is taken when truthy
(non-null and non-empty), otherwise `b`. -/
def jsOrOpt (a b : Option String) : Option String :=
  match a with
  | some s => if s = "" then b else some s
  | none => b

/-- JS `a || b` where the fallback `b` is a plain string, as in
`... || 'unknown'`. -/
def jsOrStr (a : Option String) (b : String) : String :=
  match a with
  | some s => if s = "" then b else s
  | none => b

/-- The record `extractRequestInfo` builds (the spec's `RequestContext`). -/
structure RequestInfo where
  timestamp : String
  ip : String
  domain : String
  path : String
  method : String
  userAgent : String
  referer : Option String
  requestHeaders : List (String × String)
  url : String
deriving Repr, DecidableEq

/-- `extractRequestInfo(request, path)` from `src/index.js`.  A total Lean
function: the JS body contains no construct that can throw for a
platform-delivered request (URL re-parse of a platform URL, header lookups
with `||` defaults).  `now` stands for `new Date().toISOString()`. -/
def extractRequestInfo (request : Request) (path : String) (now : String) :
    RequestInfo :=
  let clientIP :=
    jsOrStr
      (jsOrOpt
        (jsOrOpt (headersGet request.headers "fastly-client-ip")
          (headersGet request.headers "x-forwarded-for"))
        (headersGet request.headers "x-real-ip"))
      "unknown"
  { timestamp := now
    ip := clientIP
    domain := request.hostname
    path := path
    method := request.method
    userAgent := jsOrStr (headersGet request.headers "user-agent") "unknown"
    referer := headersGet request.headers "referer"
    requestHeaders := request.headers
    url := request.url }

/-- `extractResponseHeaders(response)`: the response's headers as a mapping. -/
def extractResponseHeaders (response : Response) : List (String × String) :=
  response.headers

/-- `cacheStatus` values the handler writes: `'HIT' | 'MISS' | 'ERROR'`. -/
inductive CacheStatus
  | HIT
  | MISS
  | ERROR
deriving Repr, DecidableEq

/-- `eventType` literals the handler writes: `'cache_hit' | 'success' |
's3_error' | 'error'` (the spec's `origin_error` is its generalized name
for the code literal `s3_error`). -/
inductive EventType
  | cache_hit
  | success
  | s3_error
  | error
deriving Repr, DecidableEq

/-- One BigQuery record as assembled by the `logToBigQuery` call sites in
`handleRequest` plus the constant fields `logToBigQuery` itself adds.
The derived `requestHeadersJson` / `s3ResponseHeadersJson` string columns
are serializations of fields already present and are not re-modelled. -/
structure LogEntry where
  service : String := "motorcasino-edge-app"
  version : String := "1.0.0"
  info : RequestInfo
  cacheStatus : CacheStatus
  s3ResponseHeaders : Option (List (String × String))
  error : Option String
  eventType : EventType
deriving Repr, DecidableEq

/-- Outcome of one machine-level `fetch`: a settled response or a rejected
promise (transport fault) carrying `error.message`. -/
inductive FetchOutcome
  | resp (r : Response)
  | fault (msg : String)
deriving Repr, DecidableEq

/-- The behavior of the three external collaborators during one request:
the cache-store lookup (`GET https://cache/<key>`), the origin fetch
(keyed by the S3 URL the handler builds), and the cache-store write
(`PUT https://cache/<key>` with the object to store). -/
structure Env where
  cacheGet : String → FetchOutcome
  originFetch : String → FetchOutcome
  cachePut : String → Response → FetchOutcome

/-- JS `s.startsWith(p)`, expressed on the character sequences (JS
`String.prototype.startsWith` is exactly the prefix test). -/
def jsStartsWith (s p : String) : Bool :=
  p.data.isPrefixOf s.data

/-- The object-key derivation inside `fetchFromS3`:
`path.startsWith('/') ? path.slice(1) : path` — strips one leading slash
when present. -/
def objectKey (path : String) : String :=
  if jsStartsWith path "/" then path.drop 1 else path

/-- The S3 URL `fetchFromS3` constructs for a request path. -/
def s3Url (path : String) : String :=
  "https://" ++ S3_BUCKET_NAME ++ ".s3." ++ AWS_REGION ++ ".amazonaws.com/"
    ++ objectKey path

/-- `fetchFromS3(path)`: builds the S3 request and returns `fetch`'s
outcome.  It contains no try/catch, so a rejection propagates to the
caller — this is why a transport fault reaches `handleRequest`'s outer
`catch`. -/
def fetchFromS3 (env : Env) (path : String) : FetchOutcome :=
  env.originFetch (s3Url path)

/-- The cache-key construction in `handleRequest`:
`` const cacheKey = `s3-object:${path}` ``. -/
def cacheKey (path : String) : String :=
  "s3-object:" ++ path

/-- `getCachedResponse(cacheKey)`: cache-only lookup.  A 200 is a hit; any
other settled status is `null`; the surrounding try/catch maps every
thrown error to `null` as well. -/
def getCachedResponse (env : Env) (key : String) : Option Response :=
  match env.cacheGet key with
  | .resp r => if r.status = 200 then some r else none
  | .fault _ => none

/-- `cacheResponse(cacheKey, response)`: attempts the cache PUT; the
surrounding try/catch swallows every error (the JS function returns
nothing).  We return the swallowed error message, if any, so that the
write attempt's fate stays observable in the model; callers ignore it
exactly as the JS caller does. -/
def cacheResponse (env : Env) (key : String) (response : Response) :
    Option String :=
  match env.cachePut key response with
  | .resp _ => none
  | .fault msg => some msg

/-- Everything one `handleRequest` run produces that the outside world can
see: the client response, the BigQuery records emitted (as a list, to state
"exactly one"), the cache PUT attempted (key and object), and the swallowed
cache-write error, if any. -/
structure Outcome where
  response : Response
  logs : List LogEntry
  cacheWrite : Option (String × Response)
  cacheWriteError : Option String
deriving Repr, DecidableEq

/-- `handleRequest(request)` from `src/index.js`, branch for branch.

* cache hit → HIT/`cache_hit` record, return the cached response;
* miss, origin settles non-ok → MISS/`s3_error` record, fixed
  `404 "Not Found"`, no cache write;
* miss, origin settles ok → cache PUT of a clone (value copy), then
  MISS/`success` record, return the origin response;
* origin fetch rejects → nothing else in the `try` block can throw, so the
  rejection lands in the outer `catch`: ERROR/`error` record (with
  `s3ResponseHeaders` null because `s3Response` was never assigned) and
  the fixed `500 "Internal Server Error"`. -/
def handleRequest (env : Env) (request : Request) (now : String) : Outcome :=
  let path := request.pathname
  let requestInfo := extractRequestInfo request path now
  let key := cacheKey path
  match getCachedResponse env key with
  | some cachedResponse =>
    { response := cachedResponse
      logs := [{ info := requestInfo, cacheStatus := .HIT,
                 s3ResponseHeaders := none, error := none,
                 eventType := .cache_hit }]
      cacheWrite := none
      cacheWriteError := none }
  | none =>
    match fetchFromS3 env path with
    | .resp s3Response =>
      if !s3Response.ok then
        { response := { status := 404, body := "Not Found", headers := [] }
          logs := [{ info := requestInfo, cacheStatus := .MISS,
                     s3ResponseHeaders :=
                       some (extractResponseHeaders s3Response),
                     error := some ("S3 fetch failed with status: "
                       ++ toString s3Response.status),
                     eventType := .s3_error }]
          cacheWrite := none
          cacheWriteError := none }
      else
        let responseToCache := s3Response
        let writeError := cacheResponse env key responseToCache
        { response := s3Response
          logs := [{ info := requestInfo, cacheStatus := .MISS,
                     s3ResponseHeaders :=
                       some (extractResponseHeaders s3Response),
                     error := none,
                     eventType := .success }]
          cacheWrite := some (key, responseToCache)
          cacheWriteError := writeError }
    | .fault msg =>
      { response := { status := 500, body := "Internal Server Error",
                      headers := [] }
        logs := [{ info := requestInfo, cacheStatus := .ERROR,
                   s3ResponseHeaders := none, error := some msg,
                   eventType := .error }]
        cacheWrite := none
        cacheWriteError := none }

end MotorCasino

namespace MotorCasino

/-! ## Concrete fixtures for witnesses and counterexamples -/

/-- A plain inbound request used by several concrete witnesses. -/
def demoRequest : Request :=
  { url := "https://example.com/images/logo.png"
    hostname := "example.com"
    pathname := "/images/logo.png"
    method := "GET"
    headers := [("user-agent", "curl/8.0"), ("referer", "https://example.com/")] }

/-- A request with no headers at all. -/
def bareRequest : Request :=
  { url := "https://example.com/a"
    hostname := "example.com"
    pathname := "/a"
    method := "GET"
    headers := [] }

/-- A request whose `fastly-client-ip` header is present with an empty
value while `x-forwarded-for` carries an address. -/
def emptyIpRequest : Request :=
  { url := "https://example.com/a"
    hostname := "example.com"
    pathname := "/a"
    method := "GET"
    headers := [("fastly-client-ip", ""), ("x-forwarded-for", "203.0.113.7")] }

/-- A 200 origin response with a body and a header. -/
def okResponse : Response :=
  { status := 200, body := "B", headers := [("content-type", "image/png")] }

/-- Environment where the cache misses cleanly (store answers 404), the
origin serves `okResponse`, and the cache write settles. -/
def happyEnv : Env :=
  { cacheGet := fun _ => .resp { status := 404, body := "", headers := [] }
    originFetch := fun _ => .resp okResponse
    cachePut := fun _ _ => .resp { status := 200, body := "", headers := [] } }

/-- Like `happyEnv`, but every cache write rejects. -/
def happyPutFaultEnv : Env :=
  { cacheGet := fun _ => .resp { status := 404, body := "", headers := [] }
    originFetch := fun _ => .resp okResponse
    cachePut := fun _ _ => .fault "cache store unreachable" }

/-- Environment where every collaborator call rejects: the cache lookup
faults, the origin fetch faults, the cache write faults. -/
def faultEnv : Env :=
  { cacheGet := fun _ => .fault "cache store unreachable"
    originFetch := fun _ => .fault "connection timed out"
    cachePut := fun _ _ => .fault "cache store unreachable" }

/-- Like `faultEnv`, but the cache lookup settles with a clean 404 miss
instead of rejecting. -/
def faultFreshEnv : Env :=
  { cacheGet := fun _ => .resp { status := 404, body := "", headers := [] }
    originFetch := fun _ => .fault "connection timed out"
    cachePut := fun _ _ => .fault "cache store unreachable" }

/-- Environment where the cache misses and the origin answers 404. -/
def origin404Env : Env :=
  { cacheGet := fun _ => .resp { status := 404, body := "", headers := [] }
    originFetch := fun _ =>
      .resp { status := 404, body := "<NoSuchKey/>", headers := [] }
    cachePut := fun _ _ => .resp { status := 200, body := "", headers := [] } }

/-- The three client-IP headers in the priority order the code checks. -/
def clientIpHeaders : List String :=
  ["fastly-client-ip", "x-forwarded-for", "x-real-ip"]

/-- Spec-side formulation for the amended C9: scan a list of header names
in priority order and take the first value that is present AND non-empty,
defaulting to `"unknown"`. -/
def firstNonEmptyHeader (hs : List (String × String)) :
    List String → String
  | [] => "unknown"
  | name :: rest =>
    match headersGet hs name with
    | some s => if s = "" then firstNonEmptyHeader hs rest else s
    | none => firstNonEmptyHeader hs rest

/-! ## Helper lemmas -/

/-- Appending a fixed prefix to strings is injective in the suffix. -/
theorem string_append_left_cancel (a p q : String)
    (h : a ++ p = a ++ q) : p = q := by
  apply String.ext
  have hd := congrArg String.data h
  rw [String.data_append, String.data_append] at hd
  exact List.append_cancel_left hd

/-- A string of the form `"/" ++ p` starts with `"/"`. -/
theorem jsStartsWith_slash_append (p : String) :
    jsStartsWith ("/" ++ p) "/" = true := by
  simp [jsStartsWith, String.data_append, List.isPrefixOf]

/-- Dropping one character from `"/" ++ p` gives back `p`. -/
theorem drop_one_slash_append (p : String) : ("/" ++ p).drop 1 = p := by
  apply String.ext
  rw [String.data_drop, String.data_append]
  rfl

/-! ## Claims -/

/-- C8: for every request path `P` the cache key is the literal string
`"s3-object:" ++ P` with `P` verbatim (leading slash included); the mapping
is deterministic (it is a function of `P` alone) and injective over
distinct paths. -/
theorem cacheKey_verbatim_injective (p q : String) :
    cacheKey p = "s3-object:" ++ p ∧ (cacheKey p = cacheKey q → p = q) :=
  ⟨rfl, fun h => string_append_left_cancel "s3-object:" p q h⟩

/-- Witness for C8 at the concrete path of spec Scenario A. -/
theorem cacheKey_verbatim_injective_witness :
    cacheKey "/images/logo.png" = "s3-object:/images/logo.png" ∧
      (cacheKey "/images/logo.png" = cacheKey "/images/logo.png" →
        "/images/logo.png" = "/images/logo.png") :=
  cacheKey_verbatim_injective "/images/logo.png" "/images/logo.png"

/-- C2: for every environment behavior and every inbound request, the
handler produces exactly one client-visible response (`Outcome.response`
is a single mandatory field, by construction of the embedding) and emits
exactly one telemetry record — on the hit, origin-failure, origin-success
and fault-recovery paths alike. -/
theorem handleRequest_exactly_one_log (env : Env) (request : Request)
    (now : String) :
    (handleRequest env request now).logs.length = 1 := by
  unfold handleRequest
  dsimp only
  cases getCachedResponse env (cacheKey request.pathname) with
  | some c => rfl
  | none =>
    cases fetchFromS3 env request.pathname with
    | resp r => cases hr : r.ok <;> simp [hr]
    | fault msg => rfl

/-- C10: `fetchFromS3` strips at most one leading slash, so a path without
a leading slash and the same path with one prepended fetch the identical
origin URL, while their cache keys remain distinct — origin key derivation
is not injective over distinct request paths. -/
theorem objectKey_collapses_one_slash (p : String)
    (h : jsStartsWith p "/" = false) :
    objectKey ("/" ++ p) = p ∧
    s3Url ("/" ++ p) = s3Url p ∧
    cacheKey ("/" ++ p) ≠ cacheKey p := by
  have h1 : objectKey ("/" ++ p) = p := by
    unfold objectKey
    rw [jsStartsWith_slash_append]
    simp [drop_one_slash_append]
  have h2 : objectKey p = p := by
    unfold objectKey
    rw [h]
    rfl
  refine ⟨h1, by unfold s3Url; rw [h1, h2], fun heq => ?_⟩
  have hps : ("/" ++ p : String) = p :=
    string_append_left_cancel "s3-object:" _ _ heq
  have hlen := congrArg String.length hps
  have hone : ("/" : String).length = 1 := rfl
  rw [String.length_append, hone] at hlen
  omega

/-- Witness for C10 at `p = "images/logo.png"`. -/
theorem objectKey_collapses_one_slash_witness :
    objectKey ("/" ++ "images/logo.png") = "images/logo.png" ∧
    s3Url ("/" ++ "images/logo.png") = s3Url "images/logo.png" ∧
    cacheKey ("/" ++ "images/logo.png") ≠ cacheKey "images/logo.png" :=
  objectKey_collapses_one_slash "images/logo.png" (by decide)

end MotorCasino

namespace MotorCasino

/-- C4: `extractRequestInfo` is total (it is a plain Lean function — the
embedded body has no failing construct) and missing headers default rather
than fail: absent `referer` stays `null`, absent `user-agent` and absent
client-IP headers fall back to the `"unknown"` sentinel, and the copied
header mapping is exactly the request's headers. -/
theorem extractRequestInfo_total_defaults (request : Request)
    (path now : String) :
    (headersGet request.headers "referer" = none →
      (extractRequestInfo request path now).referer = none) ∧
    (headersGet request.headers "user-agent" = none →
      (extractRequestInfo request path now).userAgent = "unknown") ∧
    (headersGet request.headers "fastly-client-ip" = none →
      headersGet request.headers "x-forwarded-for" = none →
      headersGet request.headers "x-real-ip" = none →
      (extractRequestInfo request path now).ip = "unknown") ∧
    (extractRequestInfo request path now).requestHeaders = request.headers := by
  refine ⟨fun h => ?_, fun h => ?_, fun h1 h2 h3 => ?_, rfl⟩ <;>
    simp [extractRequestInfo, jsOrStr, jsOrOpt, *]

/-- Witness for C4 on the header-less request. -/
theorem extractRequestInfo_total_defaults_witness :
    (extractRequestInfo bareRequest "/a" "t").referer = none ∧
    (extractRequestInfo bareRequest "/a" "t").userAgent = "unknown" ∧
    (extractRequestInfo bareRequest "/a" "t").ip = "unknown" :=
  ⟨(extractRequestInfo_total_defaults bareRequest "/a" "t").1 rfl,
   (extractRequestInfo_total_defaults bareRequest "/a" "t").2.1 rfl,
   (extractRequestInfo_total_defaults bareRequest "/a" "t").2.2.1 rfl rfl rfl⟩

/-- C5: on a cache miss whose origin fetch settles with status ≥ 400, no
cache write is attempted and the client response is exactly the fixed
`404` with literal body `"Not Found"`. -/
theorem origin_business_failure_no_write_404 (env : Env) (request : Request)
    (now : String) (r : Response)
    (hmiss : getCachedResponse env (cacheKey request.pathname) = none)
    (horigin : fetchFromS3 env request.pathname = .resp r)
    (hstatus : 400 ≤ r.status) :
    (handleRequest env request now).cacheWrite = none ∧
    (handleRequest env request now).response =
      { status := 404, body := "Not Found", headers := [] } := by
  have hok : r.ok = false := by
    simp [Response.ok]
    omega
  unfold handleRequest
  dsimp only
  rw [hmiss, horigin]
  simp [hok]

/-- Witness for C5: origin answers 404 for the demo request. -/
theorem origin_business_failure_no_write_404_witness :
    (handleRequest origin404Env demoRequest "t").cacheWrite = none ∧
    (handleRequest origin404Env demoRequest "t").response =
      { status := 404, body := "Not Found", headers := [] } :=
  origin_business_failure_no_write_404 origin404Env demoRequest "t"
    { status := 404, body := "<NoSuchKey/>", headers := [] }
    (by decide) rfl (by decide)

/-- C6: a cache-lookup fault is never propagated — `getCachedResponse`
returns `none` on it, and the whole request proceeds exactly as with any
environment in which the lookup cleanly misses (same response, same
telemetry, same cache write), provided origin and cache-write behave the
same. -/
theorem cache_read_fault_degrades_to_miss (env fresh : Env)
    (request : Request) (now msg : String)
    (hfault : env.cacheGet (cacheKey request.pathname) = .fault msg)
    (hmiss : getCachedResponse fresh (cacheKey request.pathname) = none)
    (ho : fresh.originFetch = env.originFetch)
    (hp : fresh.cachePut = env.cachePut) :
    getCachedResponse env (cacheKey request.pathname) = none ∧
    handleRequest env request now = handleRequest fresh request now := by
  have h1 : getCachedResponse env (cacheKey request.pathname) = none := by
    simp [getCachedResponse, hfault]
  refine ⟨h1, ?_⟩
  unfold handleRequest
  dsimp only
  rw [h1, hmiss]
  simp only [fetchFromS3, cacheResponse, ho, hp]

/-- Witness for C6: a rejecting cache lookup versus a clean 404 miss. -/
theorem cache_read_fault_degrades_to_miss_witness :
    getCachedResponse faultEnv (cacheKey demoRequest.pathname) = none ∧
    handleRequest faultEnv demoRequest "t" =
      handleRequest faultFreshEnv demoRequest "t" :=
  cache_read_fault_degrades_to_miss faultEnv faultFreshEnv demoRequest "t"
    "cache store unreachable" rfl (by decide) rfl rfl

/-- C7: when the origin fetch succeeded, a rejecting cache write changes
nothing the client sees — the response equals the one produced with a
succeeding write, and equals the origin response itself; the write fault is
merely recorded as swallowed. -/
theorem cache_write_fault_response_unchanged (env env2 : Env)
    (request : Request) (now msg : String) (r : Response)
    (hg : env2.cacheGet = env.cacheGet)
    (ho : env2.originFetch = env.originFetch)
    (hmiss : getCachedResponse env (cacheKey request.pathname) = none)
    (horigin : fetchFromS3 env request.pathname = .resp r)
    (hok : r.ok = true)
    (hfail : env2.cachePut (cacheKey request.pathname) r = .fault msg) :
    (handleRequest env2 request now).response =
      (handleRequest env request now).response ∧
    (handleRequest env2 request now).response = r ∧
    (handleRequest env2 request now).cacheWriteError = some msg := by
  have hmiss2 : getCachedResponse env2 (cacheKey request.pathname) = none := by
    unfold getCachedResponse at hmiss ⊢
    rw [hg]
    exact hmiss
  have horigin2 : fetchFromS3 env2 request.pathname = .resp r := by
    unfold fetchFromS3 at horigin ⊢
    rw [ho]
    exact horigin
  unfold handleRequest
  dsimp only
  rw [hmiss, hmiss2, horigin, horigin2]
  simp [hok, cacheResponse, hfail]

/-- Witness for C7: same environment as `happyEnv` but with every cache
write rejecting; the client still gets `okResponse`. -/
theorem cache_write_fault_response_unchanged_witness :
    (handleRequest happyPutFaultEnv demoRequest "t").response =
      (handleRequest happyEnv demoRequest "t").response ∧
    (handleRequest happyPutFaultEnv demoRequest "t").response = okResponse ∧
    (handleRequest happyPutFaultEnv demoRequest "t").cacheWriteError =
      some "cache store unreachable" :=
  cache_write_fault_response_unchanged happyEnv happyPutFaultEnv demoRequest
    "t" "cache store unreachable" okResponse rfl rfl (by decide) rfl
    (by decide) rfl

end MotorCasino

namespace MotorCasino

/-- C3: every telemetry record the handler emits pairs `cacheStatus` and
`eventType` per the fixed table — HIT exactly with `cache_hit`, ERROR
exactly with `error`, a `success` record only on a MISS whose origin fetch
settled ok, and an `s3_error` record (the code literal behind the spec's
`origin_error`) only on a MISS whose origin fetch settled non-ok. -/
theorem telemetry_status_event_consistent (env : Env) (request : Request)
    (now : String) (e : LogEntry)
    (he : e ∈ (handleRequest env request now).logs) :
    (e.cacheStatus = .HIT ↔ e.eventType = .cache_hit) ∧
    (e.cacheStatus = .ERROR ↔ e.eventType = .error) ∧
    (e.eventType = .success →
      e.cacheStatus = .MISS ∧
        ∃ r, fetchFromS3 env request.pathname = .resp r ∧ r.ok = true) ∧
    (e.eventType = .s3_error →
      e.cacheStatus = .MISS ∧
        ∃ r, fetchFromS3 env request.pathname = .resp r ∧ r.ok = false) := by
  unfold handleRequest at he
  dsimp only at he
  cases hc : getCachedResponse env (cacheKey request.pathname) with
  | some c =>
    rw [hc] at he
    simp at he
    subst he
    simp
  | none =>
    rw [hc] at he
    cases ho : fetchFromS3 env request.pathname with
    | resp r =>
      rw [ho] at he
      cases hr : r.ok with
      | true =>
        simp [hr] at he
        subst he
        refine ⟨by simp, by simp, fun _ => ⟨rfl, r, rfl, hr⟩, fun h => ?_⟩
        simp at h
      | false =>
        simp [hr] at he
        subst he
        refine ⟨by simp, by simp, fun h => ?_, fun _ => ⟨rfl, r, rfl, hr⟩⟩
        simp at h
    | fault m =>
      rw [ho] at he
      simp at he
      subst he
      simp

/-- Witness for C3 on a concrete MISS/`success` record. -/
theorem telemetry_status_event_consistent_witness :
    let e : LogEntry :=
      { info := extractRequestInfo demoRequest "/images/logo.png" "t"
        cacheStatus := .MISS
        s3ResponseHeaders := some [("content-type", "image/png")]
        error := none
        eventType := .success }
    (e.cacheStatus = .HIT ↔ e.eventType = .cache_hit) ∧
    (e.cacheStatus = .ERROR ↔ e.eventType = .error) ∧
    (e.eventType = .success →
      e.cacheStatus = .MISS ∧
        ∃ r, fetchFromS3 happyEnv demoRequest.pathname = .resp r ∧
          r.ok = true) ∧
    (e.eventType = .s3_error →
      e.cacheStatus = .MISS ∧
        ∃ r, fetchFromS3 happyEnv demoRequest.pathname = .resp r ∧
          r.ok = false) :=
  telemetry_status_event_consistent happyEnv demoRequest "t"
    { info := extractRequestInfo demoRequest "/images/logo.png" "t"
      cacheStatus := .MISS
      s3ResponseHeaders := some [("content-type", "image/png")]
      error := none
      eventType := .success }
    (by decide)

/-- C1 counterexample: when the origin fetch raises a transport fault
(here, both cache lookup and origin fetch reject), the handler returns the
fixed `500 "Internal Server Error"` — not the claimed `404 "Not Found"` —
and the telemetry record has eventType `error`, not the origin-error
event. -/
theorem transport_fault_counterexample :
    (handleRequest faultEnv demoRequest "t").response.status = 500 ∧
    (handleRequest faultEnv demoRequest "t").response.body ≠ "Not Found" ∧
    (handleRequest faultEnv demoRequest "t").logs.map LogEntry.eventType =
      [.error] ∧
    (handleRequest faultEnv demoRequest "t").logs.map LogEntry.eventType ≠
      [.s3_error] := by
  refine ⟨rfl, by decide, rfl, by decide⟩

/-- C1 (amended): a transport fault on the origin fetch escapes
`fetchFromS3` (which has no try/catch) and lands in `handleRequest`'s
outermost catch: the client gets the fixed `500 "Internal Server Error"`
and one ERROR/`error` telemetry record carrying the fault message — not
the 404/origin-error outcome of an origin business failure. -/
theorem transport_fault_maps_to_500 (env : Env) (request : Request)
    (now msg : String)
    (hmiss : getCachedResponse env (cacheKey request.pathname) = none)
    (hfault : fetchFromS3 env request.pathname = .fault msg) :
    (handleRequest env request now).response =
      { status := 500, body := "Internal Server Error", headers := [] } ∧
    (handleRequest env request now).logs.map
      (fun e => (e.cacheStatus, e.eventType)) = [(.ERROR, .error)] ∧
    (handleRequest env request now).logs.map LogEntry.error = [some msg] := by
  unfold handleRequest
  dsimp only
  rw [hmiss, hfault]
  simp

/-- Witness for the amended C1 at the concrete rejecting environment. -/
theorem transport_fault_maps_to_500_witness :
    (handleRequest faultEnv demoRequest "2024-01-15T10:30:45.123Z").response =
      { status := 500, body := "Internal Server Error", headers := [] } ∧
    (handleRequest faultEnv demoRequest "2024-01-15T10:30:45.123Z").logs.map
      (fun e => (e.cacheStatus, e.eventType)) = [(.ERROR, .error)] ∧
    (handleRequest faultEnv demoRequest "2024-01-15T10:30:45.123Z").logs.map
      LogEntry.error = [some "connection timed out"] :=
  transport_fault_maps_to_500 faultEnv demoRequest "2024-01-15T10:30:45.123Z"
    "connection timed out" rfl rfl

/-- C9 counterexample: `fastly-client-ip` is present (with an empty value),
yet the recorded ip is the forwarded-for value — JS `||` skips a falsy
present value, so "first header present wins" is not the code's rule. -/
theorem client_ip_counterexample :
    headersGet emptyIpRequest.headers "fastly-client-ip" = some "" ∧
    (extractRequestInfo emptyIpRequest "/a" "t").ip = "203.0.113.7" ∧
    (extractRequestInfo emptyIpRequest "/a" "t").ip ≠ "" := by
  refine ⟨rfl, rfl, by decide⟩

/-- C9 (amended): the recorded client identity is the value of the first
header among `fastly-client-ip`, `x-forwarded-for`, `x-real-ip` that is
present with a NON-EMPTY value (absent and present-but-empty headers are
both skipped, per JS truthiness), defaulting to `"unknown"`; no validation
of IP syntax occurs. -/
theorem client_ip_first_nonempty (request : Request) (path now : String) :
    (extractRequestInfo request path now).ip =
      firstNonEmptyHeader request.headers clientIpHeaders := by
  unfold extractRequestInfo clientIpHeaders firstNonEmptyHeader
  dsimp only
  cases h1 : headersGet request.headers "fastly-client-ip" <;>
  cases h2 : headersGet request.headers "x-forwarded-for" <;>
  cases h3 : headersGet request.headers "x-real-ip" <;>
    simp [jsOrStr, jsOrOpt, h1, h2, h3, firstNonEmptyHeader] <;>
    split_ifs <;>
    simp_all [firstNonEmptyHeader]

end MotorCasino
